import Mathlib

/-! Sync-information provider coroutines.

A shallow embedding of the coroutines of `src/rgw/rgw_cr_sip.cc`.

Each `operate()` body is a function from what the coroutine reads (its
members, the outcome of the sub-coroutine it calls) to the terminal state it
sets and the contents of the caller's output slots afterwards.

* An output pointer that the code dereferences without a test is a plain
  value: the contents of the cell before and after.
* An output pointer that the code tests (`if (pret)`) is an `Option`:
  `none` is `nullptr`, `some x` is a cell that currently holds `x`.
-/

namespace RGW

/-! ## Status codes and coroutine states -/

/-- Modelled from the spec: the errno constant behind NOT_FOUND (`<errno.h>` is not
in src); the Linux value. -/
def ENOENT : Int := 2

/-- Modelled from the spec: the errno constant behind the I/O error class (`<errno.h>`
is not in src); the Linux value. -/
def EIO : Int := 5

/-- Modelled from the spec: the errno constant behind "no more data" / exhausted
(`<errno.h>` is not in src); the Linux value. -/
def ENODATA : Int := 61

/-- Modelled from the spec: the terminal state of a coroutine (`rgw_coroutine.h` is not
in src): it completes successfully or fails with a status code. -/
inductive CRState where
  | done
  | error (ret : Int)
  deriving DecidableEq, Repr

/-- Modelled from the spec: `set_cr_error(ret)`, the error-propagation primitive of the
scheduler: the coroutine ends in the error state carrying `ret`. -/
def set_cr_error (ret : Int) : CRState := CRState.error ret

/-- Modelled from the spec: `set_cr_done()`, the coroutine ends successfully. -/
def set_cr_done : CRState := CRState.done

/-- Modelled from the spec: the `retcode` a caller observes after `yield call(cr)`:
zero when `cr` completed, the propagated code when it failed. -/
def CRState.retcode : CRState → Int
  | CRState.done => 0
  | CRState.error ret => ret

/-! ## Data model -/

/-- The type `SIProvider::stage_id_t`: an opaque string. -/
abbrev stage_id_t := String

/-- Modelled from the spec: `SIProvider::StageType` (`rgw_sync_info.h` is not in src):
the enumeration of FULL and INCREMENTAL stages. -/
inductive SIProvider.StageType where
  | FULL
  | INC
  deriving DecidableEq, Repr

/-- Modelled from the spec: `SIProvider::StageInfo` (`rgw_sync_info.h` is not in src):
stage id, stage type, shard count and data-type tag. The code reads the field `sid`. -/
structure SIProvider.StageInfo where
  sid : stage_id_t
  type : SIProvider.StageType
  num_shards : Int
  data_type : String
  deriving DecidableEq, Repr

/-- Modelled from the spec: `SIProvider::Info` (`rgw_sync_info.h` is not in src):
provider name, optional instance id and the ordered sequence of stages. The code
reads the fields `name` and `stages`. -/
structure SIProvider.Info where
  name : String
  instance_id : Option String
  stages : List SIProvider.StageInfo
  deriving DecidableEq, Repr

/-- Modelled from the spec: `rgw_sip_pos` (its header is not in src): an opaque marker
and an optional instant, here a tick count. The code reads the fields `marker` and
`timestamp`. -/
structure rgw_sip_pos where
  marker : String
  timestamp : Option Nat
  deriving DecidableEq, Repr

/-! ## Stage cursor: `SIProviderCRMgr::GetNextStageCR` -/

/-- The part of the manager contract `GetNextStageCR` consumes: `get_stages_cr(&stages)`
is a sub-coroutine that ends in some state and leaves some contents in `stages`. The
argument is the contents of the vector before the call. -/
structure SIProviderCRMgr where
  get_stages_cr : List stage_id_t → CRState × List stage_id_t

/-- The `for (auto& stage : stages)` loop of `GetNextStageCR::operate` followed by the
two lines after it. `found` is the loop-carried flag, `next_sid` the contents of
`*next_sid`. -/
def GetNextStageCR.scan (sid : stage_id_t) :
    Bool → List stage_id_t → stage_id_t → CRState × stage_id_t
  | found, [], next_sid =>
      let ret : Int := if found then -ENODATA else -ENOENT
      (set_cr_error ret, next_sid)
  | found, stage :: rest, next_sid =>
      if found then
        (set_cr_done, stage)
      else
        GetNextStageCR.scan sid (if stage == sid then true else found) rest next_sid

/-- The body of `SIProviderCRMgr::GetNextStageCR::operate`: the terminal state and the
contents of `*next_sid` afterwards. The member `stages` starts out empty. -/
def GetNextStageCR.operate (mgr : SIProviderCRMgr) (sid : stage_id_t)
    (next_sid : stage_id_t) : CRState × stage_id_t :=
  let called := mgr.get_stages_cr []
  let retcode := called.1.retcode
  let stages := called.2
  if retcode < 0 then
    (set_cr_error retcode, next_sid)
  else
    let found : Bool := sid.isEmpty
    GetNextStageCR.scan sid found stages next_sid

/-! ## Generic async dispatcher -/

/-- Modelled from the spec: `RGWGenericAsyncCR` (`rgw_cr_rados.h` is not in src): the
action's `operate()` runs exactly once on the worker pool; the awaiting coroutine
resumes after it has finished. A negative status ends the unit in the error state
with that status, any other status ends it successfully. The second component is the
action object afterwards. -/
def RGWGenericAsyncCR {A : Type} (operate : A → Int × A) (action : A) : CRState × A :=
  let r := operate action
  if r.1 < 0 then (set_cr_error r.1, r.2) else (set_cr_done, r.2)

/-- The members of `RGWSafeRetAsyncCR<T>` that `operate()` uses. `pret` is the caller's
output pointer; `cb` is the wrapped function: it receives the contents of the cell it
is pointed at and returns its status and what it leaves in that cell. -/
structure RGWSafeRetAsyncCR (T : Type) where
  pret : Option T
  cb : T → Int × T

/-- The struct `RGWSafeRetAsyncCR<T>::Action`: the heap-owned result buffer `ret`. -/
structure RGWSafeRetAsyncCR.Action (T : Type) where
  ret : T

/-- The method `RGWSafeRetAsyncCR<T>::Action::operate`: `return caller->cb(&ret)`. -/
def RGWSafeRetAsyncCR.Action.operate {T : Type} (caller : RGWSafeRetAsyncCR T)
    (self : RGWSafeRetAsyncCR.Action T) : Int × RGWSafeRetAsyncCR.Action T :=
  let r := caller.cb self.ret
  (r.1, { ret := r.2 })

/-- The body of `RGWSafeRetAsyncCR<T>::operate`: the terminal state and the caller's
output slot afterwards. `make_shared<Action>(this)` default-constructs `ret`. -/
def RGWSafeRetAsyncCR.operate {T : Type} [Inhabited T] (self : RGWSafeRetAsyncCR T) :
    CRState × Option T :=
  let action : RGWSafeRetAsyncCR.Action T := { ret := default }
  let called := RGWGenericAsyncCR (RGWSafeRetAsyncCR.Action.operate self) action
  let retcode := called.1.retcode
  let action := called.2
  if retcode < 0 then
    (set_cr_error retcode, self.pret)
  else
    let pret := match self.pret with
      | some _ => some action.ret
      | none => none
    (set_cr_done, pret)

/-- The members of `RGWSafeMultiRetAsyncCR<Ts...>` at two outputs (the arity of its
one use, `RGWSafeMultiRetAsyncCR<rgw_sip_pos, bool>`): the tuple `pret` of output
pointers and the wrapped function `cb`, which receives the contents of the two cells
it is pointed at and returns its status and what it leaves in them. -/
structure RGWSafeMultiRetAsyncCR (A B : Type) where
  pret : Option A × Option B
  cb : A → B → Int × A × B

/-- The struct `RGWSafeMultiRetAsyncCR<Ts...>::Action`: the result tuple `ret`. -/
structure RGWSafeMultiRetAsyncCR.Action (A B : Type) where
  ret : A × B

/-- The method `Action::call_cb`: `return caller->cb(&std::get<Is>(v)...)`. -/
def RGWSafeMultiRetAsyncCR.Action.call_cb {A B : Type} (caller : RGWSafeMultiRetAsyncCR A B)
    (v : A × B) : Int × (A × B) :=
  caller.cb v.1 v.2

/-- The method `Action::operate`: `return call_cb(ret, ...)`. -/
def RGWSafeMultiRetAsyncCR.Action.operate {A B : Type} (caller : RGWSafeMultiRetAsyncCR A B)
    (self : RGWSafeMultiRetAsyncCR.Action A B) : Int × RGWSafeMultiRetAsyncCR.Action A B :=
  let r := RGWSafeMultiRetAsyncCR.Action.call_cb caller self.ret
  (r.1, { ret := r.2 })

/-- The method `assign_ret(T* p, T& v)`: `if (p) *p = v; return 0;`. The result is the
returned int and the slot afterwards. -/
def RGWSafeMultiRetAsyncCR.assign_ret {T : Type} (p : Option T) (v : T) : Int × Option T :=
  match p with
  | some _ => (0, some v)
  | none => (0, none)

/-- The method `apply_ret`: one `assign_ret` per index; `apply_ret_helper` drops the
returned ints. -/
def RGWSafeMultiRetAsyncCR.apply_ret {A B : Type} (p : Option A × Option B) (v : A × B) :
    Option A × Option B :=
  ((RGWSafeMultiRetAsyncCR.assign_ret p.1 v.1).2, (RGWSafeMultiRetAsyncCR.assign_ret p.2 v.2).2)

/-- The body of `RGWSafeMultiRetAsyncCR<Ts...>::operate` at two outputs: the terminal
state and the caller's two output slots afterwards. -/
def RGWSafeMultiRetAsyncCR.operate {A B : Type} [Inhabited A] [Inhabited B]
    (self : RGWSafeMultiRetAsyncCR A B) : CRState × (Option A × Option B) :=
  let action : RGWSafeMultiRetAsyncCR.Action A B := { ret := (default, default) }
  let called := RGWGenericAsyncCR (RGWSafeMultiRetAsyncCR.Action.operate self) action
  let retcode := called.1.retcode
  let action := called.2
  if retcode < 0 then
    (set_cr_error retcode, self.pret)
  else
    (set_cr_done, RGWSafeMultiRetAsyncCR.apply_ret self.pret action.ret)

/-! ## Local manager -/

/-- Modelled from the spec: the method `get_cur_state` of the local provider interface
(`rgw_sync_info.h` is not in src): a synchronous call taking the stage id, the shard
id and the contents of the cells behind its `marker`, `timestamp` and `disabled`
pointers; it returns a status and what it leaves in those cells. -/
structure SIProvider where
  get_cur_state : stage_id_t → Int → String → Option Nat → Bool →
    Int × String × Option Nat × Bool

instance : Inhabited rgw_sip_pos := ⟨{ marker := "", timestamp := none }⟩

/-- The coroutine built by `SIProviderCRMgr_Local::get_cur_state_cr`: the two-output
dispatcher around `pvd->get_cur_state(sid, shard_id, &_pos->marker, &_pos->timestamp,
_disabled)`. -/
def SIProviderCRMgr_Local.get_cur_state_cr (pvd : SIProvider) (sid : stage_id_t)
    (shard_id : Int) (pos : Option rgw_sip_pos) (disabled : Option Bool) :
    RGWSafeMultiRetAsyncCR rgw_sip_pos Bool :=
  { pret := (pos, disabled)
    cb := fun _pos _disabled =>
      let r := pvd.get_cur_state sid shard_id _pos.marker _pos.timestamp _disabled
      (r.1, { marker := r.2.1, timestamp := r.2.2.1 }, r.2.2.2) }

/-- Modelled from the spec: `RGWSI_SIP_Marker::SetParams` (its header is not in src):
the new marker value, the optional min source position and the mode flags; passed
through untouched. -/
structure RGWSI_SIP_Marker.SetParams where
  marker : String
  min_source_pos : Option String
  flags : Nat
  deriving DecidableEq, Repr

/-- Modelled from the spec: the marker-handler interface `RGWSI_SIP_Marker::Handler`
(its header is not in src): `set_marker` and `set_min_source_pos`, each returning a
status code. The `modify_result` that `set_marker` fills is a local the caller drops. -/
structure RGWSI_SIP_Marker.Handler where
  set_marker : stage_id_t → Int → RGWSI_SIP_Marker.SetParams → Int
  set_min_source_pos : stage_id_t → Int → String → Int

/-- One invocation of a marker-handler method, with its arguments: the trace through
which a wrapped call shows whether it reached the handler. -/
inductive RGWSI_SIP_Marker.HandlerCall where
  | set_marker (sid : stage_id_t) (shard_id : Int) (params : RGWSI_SIP_Marker.SetParams)
  | set_min_source_pos (sid : stage_id_t) (shard_id : Int) (pos : String)
  deriving DecidableEq, Repr

/-- The member `cb` of `RGWAsyncLambdaCR<T>`, a `std::function<int()>`: it acts on what
it captured, here a state of type `E`, and returns its status and the state
afterwards. -/
structure RGWAsyncLambdaCR (E : Type) where
  cb : E → Int × E

/-- The method `RGWAsyncLambdaCR<T>::Action::operate`: `return caller->cb()`. -/
def RGWAsyncLambdaCR.Action.operate {E : Type} (caller : RGWAsyncLambdaCR E) (env : E) :
    Int × E :=
  caller.cb env

/-- The body of `RGWAsyncLambdaCR<T>::operate`: the terminal state, and the captured
state afterwards. -/
def RGWAsyncLambdaCR.operate {E : Type} (self : RGWAsyncLambdaCR E) (env : E) :
    CRState × E :=
  let called := RGWGenericAsyncCR (RGWAsyncLambdaCR.Action.operate self) env
  let retcode := called.1.retcode
  if retcode < 0 then
    (set_cr_error retcode, called.2)
  else
    (set_cr_done, called.2)

/-- The coroutine built by `SIProviderCRMgr_Local::update_marker_cr`. `marker_handler`
is the result of `svc.sip_marker->get_handler(provider)`, `none` for a null handler;
the captured state is the trace of handler invocations. -/
def SIProviderCRMgr_Local.update_marker_cr (marker_handler : Option RGWSI_SIP_Marker.Handler)
    (sid : stage_id_t) (shard_id : Int) (params : RGWSI_SIP_Marker.SetParams) :
    RGWAsyncLambdaCR (List RGWSI_SIP_Marker.HandlerCall) :=
  { cb := fun calls =>
      match marker_handler with
      | none => (- EIO, calls)
      | some handler =>
        let r := handler.set_marker sid shard_id params
        let calls := calls ++ [RGWSI_SIP_Marker.HandlerCall.set_marker sid shard_id params]
        if r < 0 then
          (r, calls)
        else
          (0, calls) }

/-- The coroutine built by `SIProviderCRMgr_Local::set_min_source_pos_cr`, in the same
terms as `update_marker_cr`. -/
def SIProviderCRMgr_Local.set_min_source_pos_cr
    (marker_handler : Option RGWSI_SIP_Marker.Handler)
    (sid : stage_id_t) (shard_id : Int) (pos : String) :
    RGWAsyncLambdaCR (List RGWSI_SIP_Marker.HandlerCall) :=
  { cb := fun calls =>
      match marker_handler with
      | none => (- EIO, calls)
      | some handler =>
        let r := handler.set_min_source_pos sid shard_id pos
        let calls := calls ++ [RGWSI_SIP_Marker.HandlerCall.set_min_source_pos sid shard_id pos]
        if r < 0 then
          (r, calls)
        else
          (0, calls) }

/-! ## REST manager -/

/-- Modelled from the spec: the outcome of one `RGWReadRESTResourceCR` round trip
(`rgw_cr_rest.h` is not in src): the `retcode` the caller observes and what the read
leaves in the result object it was given. -/
structure RESTReply (T : Type) where
  retcode : Int
  result : T

/-- The body of `SIProviderRESTCRs::GetStagesInfoCR::operate` after the request is
issued: the terminal state and the contents of `*info`. -/
def SIProviderRESTCRs.GetStagesInfoCR.operate (reply : RESTReply SIProvider.Info) :
    CRState × SIProvider.Info :=
  let retcode := reply.retcode
  let info := reply.result
  if retcode < 0 then
    (set_cr_error retcode, info)
  else
    (set_cr_done, info)

/-- The `for (auto& si : info.stages)` loop of `GetStageInfoCR::operate` followed by
the lines after it; `sinfo` is the contents of `*sinfo`. -/
def SIProviderRESTCRs.GetStageInfoCR.scan (sid : stage_id_t) :
    List SIProvider.StageInfo → SIProvider.StageInfo → CRState × SIProvider.StageInfo
  | [], sinfo => (set_cr_error (-ENOENT), sinfo)
  | si :: rest, sinfo =>
      if si.sid == sid then
        (set_cr_done, si)
      else
        SIProviderRESTCRs.GetStageInfoCR.scan sid rest sinfo

/-- The body of `SIProviderRESTCRs::GetStageInfoCR::operate`: the terminal state and
the contents of `*sinfo` afterwards. -/
def SIProviderRESTCRs.GetStageInfoCR.operate (reply : RESTReply SIProvider.Info)
    (sid : stage_id_t) (sinfo : SIProvider.StageInfo) : CRState × SIProvider.StageInfo :=
  let called := SIProviderRESTCRs.GetStagesInfoCR.operate reply
  let retcode := called.1.retcode
  let info := called.2
  if retcode < 0 then
    (set_cr_error retcode, sinfo)
  else
    SIProviderRESTCRs.GetStageInfoCR.scan sid info.stages sinfo

/-- The anonymous struct `status.markers` of `GetStagesStatusCR`. -/
structure SIProviderRESTCRs.GetStagesStatusCR.Markers where
  start : rgw_sip_pos
  current : rgw_sip_pos
  deriving DecidableEq, Repr

/-- The anonymous struct `status` of `GetStagesStatusCR`: the decoded status response. -/
structure SIProviderRESTCRs.GetStagesStatusCR.Status where
  markers : SIProviderRESTCRs.GetStagesStatusCR.Markers
  disabled : Bool
  deriving DecidableEq, Repr

/-- The members of `SIProviderRESTCRs::GetStagesStatusCR`: the request's stage and
shard and the three output pointers. -/
structure SIProviderRESTCRs.GetStagesStatusCR where
  sid : stage_id_t
  shard_id : Int
  start_pos : Option rgw_sip_pos
  cur_pos : Option rgw_sip_pos
  disabled : Option Bool
  deriving DecidableEq, Repr

/-- The three output slots of `GetStagesStatusCR` after `operate()`. -/
structure SIProviderRESTCRs.GetStagesStatusCR.Slots where
  start_pos : Option rgw_sip_pos
  cur_pos : Option rgw_sip_pos
  disabled : Option Bool
  deriving DecidableEq, Repr

/-- The body of `SIProviderRESTCRs::GetStagesStatusCR::operate` after the request is
issued: the terminal state and the three output slots afterwards. -/
def SIProviderRESTCRs.GetStagesStatusCR.operate (self : SIProviderRESTCRs.GetStagesStatusCR)
    (reply : RESTReply SIProviderRESTCRs.GetStagesStatusCR.Status) :
    CRState × SIProviderRESTCRs.GetStagesStatusCR.Slots :=
  let retcode := reply.retcode
  let status := reply.result
  if retcode < 0 then
    (set_cr_error retcode,
      { start_pos := self.start_pos, cur_pos := self.cur_pos, disabled := self.disabled })
  else
    let start_pos := match self.start_pos with
      | some _ => some status.markers.start
      | none => none
    let cur_pos := match self.cur_pos with
      | some _ => some status.markers.current
      | none => none
    let disabled := match self.disabled with
      | some _ => some status.disabled
      | none => none
    (set_cr_done, { start_pos := start_pos, cur_pos := cur_pos, disabled := disabled })

/-- The coroutine built by `SIProviderCRMgr_REST::get_start_marker_cr`:
`GetStagesStatusCR(this, sid, shard_id, pos, nullptr, nullptr)`. -/
def SIProviderCRMgr_REST.get_start_marker_cr (sid : stage_id_t) (shard_id : Int)
    (pos : Option rgw_sip_pos) : SIProviderRESTCRs.GetStagesStatusCR :=
  { sid := sid, shard_id := shard_id, start_pos := pos, cur_pos := none, disabled := none }

/-- The coroutine built by `SIProviderCRMgr_REST::get_cur_state_cr`:
`GetStagesStatusCR(this, sid, shard_id, nullptr, pos, disabled)`. -/
def SIProviderCRMgr_REST.get_cur_state_cr (sid : stage_id_t) (shard_id : Int)
    (pos : Option rgw_sip_pos) (disabled : Option Bool) :
    SIProviderRESTCRs.GetStagesStatusCR :=
  { sid := sid, shard_id := shard_id, start_pos := none, cur_pos := pos, disabled := disabled }

/-- The `for (auto& sinfo : info.stages)` loop of `GetStagesCR::operate`: one
`result->push_back(sinfo.sid)` per stage; `result` is the contents of `*result`. -/
def SIProviderRESTCRs.GetStagesCR.push_all :
    List SIProvider.StageInfo → List stage_id_t → List stage_id_t
  | [], result => result
  | sinfo :: rest, result => SIProviderRESTCRs.GetStagesCR.push_all rest (result ++ [sinfo.sid])

/-- The body of `SIProviderRESTCRs::GetStagesCR::operate`: the terminal state and the
contents of `*result` afterwards. `result->clear()` empties the vector and
`result->reserve(...)` leaves its contents alone. -/
def SIProviderRESTCRs.GetStagesCR.operate (reply : RESTReply SIProvider.Info)
    (result : List stage_id_t) : CRState × List stage_id_t :=
  let called := SIProviderRESTCRs.GetStagesInfoCR.operate reply
  let retcode := called.1.retcode
  let info := called.2
  if retcode < 0 then
    (set_cr_error retcode, result)
  else
    let cleared : List stage_id_t := []
    (set_cr_done, SIProviderRESTCRs.GetStagesCR.push_all info.stages cleared)

/-- Modelled from the spec: `SIProvider::fetch_result` (`rgw_sync_info.h` is not in
src): the sequence of entries, here their payloads, the "more data available" flag
and the resulting marker. -/
structure SIProvider.fetch_result where
  entries : List String
  more : Bool
  marker : String
  deriving DecidableEq, Repr

/-- Modelled from the spec: `SIProvider::TypeHandler` (`rgw_sync_info.h` is not in
src): the data-type-selected decoder. `decode_json_results(sid, &p, result)` takes the
stage id, the parsed document and the contents of `*result`; it returns its status
and what it leaves in `*result`. `J` is the type of parsed documents. -/
structure SIProvider.TypeHandler (J : Type) where
  decode_json_results : stage_id_t → J → SIProvider.fetch_result →
    Int × SIProvider.fetch_result

/-- What `SIProviderRESTCRs::FetchCR::operate` reads after the request is issued: the
member `sid`, the parser (`JSONParser::parse` of `common/ceph_json.h`, not in src:
`none` when the body is not parseable, the parsed document otherwise) and the result
of `mgr->type_provider->get_type_handler()`, `none` for a null handler. -/
structure SIProviderRESTCRs.FetchCR (J : Type) where
  sid : stage_id_t
  parse : String → Option J
  type_handler : Option (SIProvider.TypeHandler J)

/-- The body of `SIProviderRESTCRs::FetchCR::operate` after the request is issued:
the terminal state and the contents of `*result` afterwards. `reply.result` is the
body left in `bl`. -/
def SIProviderRESTCRs.FetchCR.operate {J : Type} (self : SIProviderRESTCRs.FetchCR J)
    (reply : RESTReply String) (result : SIProvider.fetch_result) :
    CRState × SIProvider.fetch_result :=
  let retcode := reply.retcode
  let bl := reply.result
  if retcode < 0 then
    (set_cr_error retcode, result)
  else
    match self.parse bl with
    | none => (set_cr_error (- EIO), result)
    | some p =>
      match self.type_handler with
      | none => (set_cr_error (- EIO), result)
      | some type_handler =>
        let decoded := type_handler.decode_json_results self.sid p result
        let r := decoded.1
        if r < 0 then
          (set_cr_error r, decoded.2)
        else
          (set_cr_done, decoded.2)

/-! ## REST manager: request parameters -/

/-- Modelled from the spec: `SIProvider::stage_type_to_str` (`rgw_sync_info.h` is not
in src): the wire name of a stage type. No statement below depends on the names. -/
def SIProvider.stage_type_to_str : SIProvider.StageType → String
  | SIProvider.StageType.FULL => "full"
  | SIProvider.StageType.INC => "inc"

/-- The members of `SIProviderCRMgr_REST` the request builders read: the optional
filters `remote_provider_name`, `instance` (here `instance_id`), `data_type` and
`stage_type`, and the cached provider info behind `get_info()`. -/
structure SIProviderCRMgr_REST where
  remote_provider_name : Option String
  instance_id : Option String
  data_type : Option String
  stage_type : Option SIProvider.StageType
  info : SIProvider.Info

/-- The struct `rgw_http_param_pair` (`rgw_rest_conn.h` is not in src; its use in the
initialisers fixes the shape): two `const char *`, `none` for `nullptr`. -/
structure rgw_http_param_pair where
  key : Option String
  val : Option String
  deriving DecidableEq, Repr

/-- The C string a reader of `s.c_str()` sees for a `std::string` `s`: the characters
of `s` up to its first NUL. -/
def c_str (s : String) : String :=
  String.mk (s.data.takeWhile (fun c => c.toNat != 0))

/-- The C string `snprintf(buf, size, "%d", n)` leaves in `buf`: the decimal rendering
of `n`, cut to `size - 1` characters. -/
def snprintf_d (size : Nat) (n : Int) : String :=
  (toString n).take (size - 1)

/-- The array `pairs[]` built in `SIProviderRESTCRs::GetStagesInfoCR::operate`; every
value is a `const char *`, so what stands behind `c_str()` is the C string. -/
def SIProviderRESTCRs.GetStagesInfoCR.pairs (mgr : SIProviderCRMgr_REST) :
    List rgw_http_param_pair :=
  let stage_type_str : String := match mgr.stage_type with
    | some t => SIProvider.stage_type_to_str t
    | none => ""
  let instance_key := if mgr.instance_id.isSome then "instance" else ""
  let instance_val := match mgr.instance_id with
    | some i => c_str i
    | none => ""
  let provider_key := if mgr.remote_provider_name.isSome then "provider" else ""
  let provider_val := match mgr.remote_provider_name with
    | some n => c_str n
    | none => ""
  let data_type_key := if mgr.data_type.isSome then "data-type" else ""
  let data_type_val := match mgr.data_type with
    | some d => c_str d
    | none => ""
  let stage_type_key := if mgr.stage_type.isSome then "stage-type" else ""
  let stage_type_val := if mgr.stage_type.isSome then c_str stage_type_str else ""
  [ { key := some "info", val := none },
    { key := some provider_key, val := some provider_val },
    { key := some data_type_key, val := some data_type_val },
    { key := some stage_type_key, val := some stage_type_val },
    { key := some instance_key, val := some instance_val },
    { key := none, val := none } ]

/-- The array `pairs[]` built in `SIProviderRESTCRs::FetchCR::operate`: `max_buf` and
`shard_id_buf` are the two 16-byte `snprintf` buffers, and `name`, `sid` and `marker`
enter through `c_str()`. -/
def SIProviderRESTCRs.FetchCR.pairs (mgr : SIProviderCRMgr_REST) (sid : stage_id_t)
    (shard_id : Int) (marker : String) (max : Int) : List rgw_http_param_pair :=
  let instance_key := if mgr.instance_id.isSome then "instance" else ""
  let instance_val := match mgr.instance_id with
    | some i => c_str i
    | none => ""
  let max_buf := snprintf_d 16 max
  let shard_id_buf := snprintf_d 16 shard_id
  [ { key := some "provider", val := some (c_str mgr.info.name) },
    { key := some instance_key, val := some instance_val },
    { key := some "stage-id", val := some (c_str sid) },
    { key := some "shard-id", val := some shard_id_buf },
    { key := some "max", val := some max_buf },
    { key := some "marker", val := some (c_str marker) },
    { key := none, val := none } ]

/-- The array `pairs[]` built in `SIProviderRESTCRs::GetStagesStatusCR::operate`;
`name` and `sid` enter through `c_str()`. -/
def SIProviderRESTCRs.GetStagesStatusCR.pairs (mgr : SIProviderCRMgr_REST)
    (sid : stage_id_t) (shard_id : Int) : List rgw_http_param_pair :=
  let instance_key := if mgr.instance_id.isSome then "instance" else ""
  let shard_id_buf := snprintf_d 16 shard_id
  let instance_val := match mgr.instance_id with
    | some i => c_str i
    | none => ""
  [ { key := some "status", val := none },
    { key := some "provider", val := some (c_str mgr.info.name) },
    { key := some instance_key, val := some instance_val },
    { key := some "stage-id", val := some (c_str sid) },
    { key := some "shard-id", val := some shard_id_buf },
    { key := none, val := none } ]

/-- The array `pairs[]` built in `SIProviderRESTCRs::TrimCR::operate`; `name`, `sid`
and `marker` enter through `c_str()`. -/
def SIProviderRESTCRs.TrimCR.pairs (mgr : SIProviderCRMgr_REST) (sid : stage_id_t)
    (shard_id : Int) (marker : String) : List rgw_http_param_pair :=
  let instance_key := if mgr.instance_id.isSome then "instance" else ""
  let shard_id_buf := snprintf_d 16 shard_id
  let instance_val := match mgr.instance_id with
    | some i => c_str i
    | none => ""
  [ { key := some "provider", val := some (c_str mgr.info.name) },
    { key := some instance_key, val := some instance_val },
    { key := some "stage-id", val := some (c_str sid) },
    { key := some "shard-id", val := some shard_id_buf },
    { key := some "marker", val := some (c_str marker) },
    { key := none, val := none } ]

/-- The array `pairs[]` built in `SIProviderRESTCRs::UpdateMarkerCR::operate`; `name`
and `sid` enter through `c_str()`. -/
def SIProviderRESTCRs.UpdateMarkerCR.pairs (mgr : SIProviderCRMgr_REST)
    (sid : stage_id_t) (shard_id : Int) : List rgw_http_param_pair :=
  let instance_key := if mgr.instance_id.isSome then "instance" else ""
  let shard_id_buf := snprintf_d 16 shard_id
  let instance_val := match mgr.instance_id with
    | some i => c_str i
    | none => ""
  [ { key := some "marker-info", val := none },
    { key := some "provider", val := some (c_str mgr.info.name) },
    { key := some instance_key, val := some instance_val },
    { key := some "stage-id", val := some (c_str sid) },
    { key := some "shard-id", val := some shard_id_buf },
    { key := none, val := none } ]

/-- Modelled from the spec: the parameter list of the request built from a `pairs[]`
array (the request builders of `rgw_cr_rest.h` and `rgw_rest_conn.h` are not in src).
The array is read up to its null-key terminator; a parameter with an empty key is
skipped; a parameter whose value is the empty string is omitted; a request-type
marker, which has no value at all (`nullptr`), is kept as a bare key. -/
def request_params : List rgw_http_param_pair → List (String × Option String)
  | [] => []
  | { key := none, val := _ } :: _ => []
  | { key := some k, val := v } :: rest =>
      if k = "" then request_params rest
      else if v = some "" then request_params rest
      else (k, v) :: request_params rest

/-! ## Lemmas on the stage scan -/

theorem isEmpty_eq_false_of_ne {sid : String} (h : sid ≠ "") : sid.isEmpty = false := by
  cases hb : sid.isEmpty with
  | false => rfl
  | true => exact absurd ((String.isEmpty_iff sid).mp hb) h

theorem scan_found_nil (sid : stage_id_t) (next_sid : stage_id_t) :
    GetNextStageCR.scan sid true [] next_sid = (CRState.error (-ENODATA), next_sid) := by
  simp [GetNextStageCR.scan, set_cr_error]

theorem scan_found_cons (sid stage : stage_id_t) (rest : List stage_id_t)
    (next_sid : stage_id_t) :
    GetNextStageCR.scan sid true (stage :: rest) next_sid = (CRState.done, stage) := by
  simp [GetNextStageCR.scan, set_cr_done]

theorem scan_absent (sid : stage_id_t) (next_sid : stage_id_t) :
    ∀ stages : List stage_id_t, sid ∉ stages →
      GetNextStageCR.scan sid false stages next_sid = (CRState.error (-ENOENT), next_sid)
  | [], _ => by simp [GetNextStageCR.scan, set_cr_error]
  | stage :: rest, h => by
      have hne : stage ≠ sid := fun e => h (by simp [e])
      have hrest : sid ∉ rest := fun m => h (List.mem_cons_of_mem _ m)
      simp [GetNextStageCR.scan, hne, scan_absent sid next_sid rest hrest]

theorem scan_skip_prefix (sid : stage_id_t) (next_sid : stage_id_t)
    (rest : List stage_id_t) :
    ∀ pre : List stage_id_t, sid ∉ pre →
      GetNextStageCR.scan sid false (pre ++ sid :: rest) next_sid
        = GetNextStageCR.scan sid true rest next_sid
  | [], _ => by simp [GetNextStageCR.scan]
  | stage :: pre, h => by
      have hne : stage ≠ sid := fun e => h (by simp [e])
      have hpre : sid ∉ pre := fun m => h (List.mem_cons_of_mem _ m)
      simp [GetNextStageCR.scan, hne, scan_skip_prefix sid next_sid rest pre hpre]

theorem operate_of_done (mgr : SIProviderCRMgr) (stages : List stage_id_t)
    (sid next_sid : stage_id_t) (h : mgr.get_stages_cr [] = (CRState.done, stages)) :
    GetNextStageCR.operate mgr sid next_sid
      = GetNextStageCR.scan sid sid.isEmpty stages next_sid := by
  simp [GetNextStageCR.operate, h, CRState.retcode]

/-! ## Lemmas on the dispatchers and the REST scans -/

theorem safe_ret_operate_error {T : Type} [Inhabited T] (cr : RGWSafeRetAsyncCR T)
    (st : Int) (v : T) (h : cr.cb default = (st, v)) (hst : st < 0) :
    cr.operate = (CRState.error st, cr.pret) := by
  simp [RGWSafeRetAsyncCR.operate, RGWSafeRetAsyncCR.Action.operate, RGWGenericAsyncCR,
    h, hst, set_cr_error, CRState.retcode]

theorem safe_ret_operate_done {T : Type} [Inhabited T] (cr : RGWSafeRetAsyncCR T)
    (st : Int) (v : T) (h : cr.cb default = (st, v)) (hst : 0 ≤ st) :
    cr.operate = (CRState.done, match cr.pret with
      | some _ => some v
      | none => none) := by
  have hn : ¬ st < 0 := not_lt.mpr hst
  simp [RGWSafeRetAsyncCR.operate, RGWSafeRetAsyncCR.Action.operate, RGWGenericAsyncCR,
    h, hn, set_cr_done, CRState.retcode]

theorem stage_info_operate_of_ok (reply : RESTReply SIProvider.Info) (sid : stage_id_t)
    (sinfo : SIProvider.StageInfo) (hok : 0 ≤ reply.retcode) :
    SIProviderRESTCRs.GetStageInfoCR.operate reply sid sinfo
      = SIProviderRESTCRs.GetStageInfoCR.scan sid reply.result.stages sinfo := by
  have hn : ¬ reply.retcode < 0 := not_lt.mpr hok
  simp [SIProviderRESTCRs.GetStageInfoCR.operate, SIProviderRESTCRs.GetStagesInfoCR.operate,
    hn, set_cr_done, CRState.retcode]

theorem stage_info_scan_absent (sid : stage_id_t) (sinfo : SIProvider.StageInfo) :
    ∀ stages : List SIProvider.StageInfo, (∀ si ∈ stages, si.sid ≠ sid) →
      SIProviderRESTCRs.GetStageInfoCR.scan sid stages sinfo
        = (CRState.error (-ENOENT), sinfo)
  | [], _ => by simp [SIProviderRESTCRs.GetStageInfoCR.scan, set_cr_error]
  | si :: rest, h => by
      have hne : si.sid ≠ sid := h si (by simp)
      have hrest : ∀ x ∈ rest, x.sid ≠ sid := fun x m => h x (List.mem_cons_of_mem _ m)
      simp [SIProviderRESTCRs.GetStageInfoCR.scan, hne,
        stage_info_scan_absent sid sinfo rest hrest]

theorem stage_info_scan_first (sid : stage_id_t) (sinfo si : SIProvider.StageInfo)
    (back : List SIProvider.StageInfo) (hsi : si.sid = sid) :
    ∀ front : List SIProvider.StageInfo, (∀ x ∈ front, x.sid ≠ sid) →
      SIProviderRESTCRs.GetStageInfoCR.scan sid (front ++ si :: back) sinfo
        = (CRState.done, si)
  | [], _ => by simp [SIProviderRESTCRs.GetStageInfoCR.scan, hsi, set_cr_done]
  | x :: front, h => by
      have hne : x.sid ≠ sid := h x (by simp)
      have hfront : ∀ y ∈ front, y.sid ≠ sid := fun y m => h y (List.mem_cons_of_mem _ m)
      simp [SIProviderRESTCRs.GetStageInfoCR.scan, hne,
        stage_info_scan_first sid sinfo si back hsi front hfront]

theorem stage_info_scan_done_iff (sid : stage_id_t) (sinfo : SIProvider.StageInfo) :
    ∀ stages : List SIProvider.StageInfo,
      (SIProviderRESTCRs.GetStageInfoCR.scan sid stages sinfo).1 = CRState.done
        ↔ ∃ si ∈ stages, si.sid = sid
  | [] => by simp [SIProviderRESTCRs.GetStageInfoCR.scan, set_cr_error]
  | si :: rest => by
      by_cases hsi : si.sid = sid
      · simp [SIProviderRESTCRs.GetStageInfoCR.scan, hsi, set_cr_done]
      · simp [SIProviderRESTCRs.GetStageInfoCR.scan, hsi,
          stage_info_scan_done_iff sid sinfo rest]

/-! ## Lemmas on REST fetch, listing and request parameters -/

theorem fetch_operate_of_ok {J : Type} (cr : SIProviderRESTCRs.FetchCR J)
    (reply : RESTReply String) (result : SIProvider.fetch_result)
    (hok : 0 ≤ reply.retcode) :
    cr.operate reply result
      = match cr.parse reply.result with
        | none => (CRState.error (- EIO), result)
        | some p =>
          match cr.type_handler with
          | none => (CRState.error (- EIO), result)
          | some th =>
            if (th.decode_json_results cr.sid p result).1 < 0 then
              (CRState.error (th.decode_json_results cr.sid p result).1,
                (th.decode_json_results cr.sid p result).2)
            else
              (CRState.done, (th.decode_json_results cr.sid p result).2) := by
  have hn : ¬ reply.retcode < 0 := not_lt.mpr hok
  simp only [SIProviderRESTCRs.FetchCR.operate, hn, if_false, set_cr_error, set_cr_done]

theorem push_all_eq_append_map :
    ∀ (stages : List SIProvider.StageInfo) (result : List stage_id_t),
      SIProviderRESTCRs.GetStagesCR.push_all stages result
        = result ++ stages.map (fun sinfo => sinfo.sid)
  | [], result => by simp [SIProviderRESTCRs.GetStagesCR.push_all]
  | sinfo :: rest, result => by
      simp [SIProviderRESTCRs.GetStagesCR.push_all, push_all_eq_append_map rest]

theorem request_params_sound :
    ∀ (pairs : List rgw_http_param_pair) (p : String × Option String),
      p ∈ request_params pairs →
        p.1 ≠ "" ∧ p.2 ≠ some "" ∧ ({ key := some p.1, val := p.2 } : rgw_http_param_pair) ∈ pairs
  | [], p, h => by simp [request_params] at h
  | { key := none, val := _ } :: _, p, h => by simp [request_params] at h
  | { key := some k, val := v } :: rest, p, h => by
      by_cases hk : k = ""
      · simp only [request_params, hk, if_true] at h
        have ih := request_params_sound rest p h
        exact ⟨ih.1, ih.2.1, List.mem_cons_of_mem _ ih.2.2⟩
      · by_cases hv : v = some ""
        · simp only [request_params, hk, hv, if_true, if_false] at h
          have ih := request_params_sound rest p h
          exact ⟨ih.1, ih.2.1, List.mem_cons_of_mem _ ih.2.2⟩
        · simp only [request_params, hk, hv, if_false, List.mem_cons] at h
          rcases h with h | h
          · subst h
            exact ⟨hk, hv, List.mem_cons_self _ _⟩
          · have ih := request_params_sound rest p h
            exact ⟨ih.1, ih.2.1, List.mem_cons_of_mem _ ih.2.2⟩

theorem request_params_complete (k : String) (v : Option String)
    (back : List rgw_http_param_pair) (hk : k ≠ "") (hv : v ≠ some "") :
    ∀ front : List rgw_http_param_pair, (∀ q ∈ front, q.key ≠ none) →
      (k, v) ∈ request_params (front ++ { key := some k, val := v } :: back)
  | [], _ => by simp [request_params, hk, hv]
  | { key := none, val := _ } :: _, h => by
      exact absurd rfl (h _ (List.mem_cons_self _ _))
  | { key := some k0, val := v0 } :: front, h => by
      have ih := request_params_complete k v back hk hv front
        (fun q m => h q (List.mem_cons_of_mem _ m))
      by_cases hk0 : k0 = ""
      · simpa [request_params, hk0] using ih
      · by_cases hv0 : v0 = some ""
        · simpa [request_params, hk0, hv0] using ih
        · simp only [List.cons_append, request_params, hk0, hv0, if_false, List.mem_cons]
          exact Or.inr ih

/-! ## Stage cursor: the claims -/

/-- C1, as stated, fails: when the stage listing succeeds with no stage ids and the
input sid is empty, `GetNextStageCR::operate` fails with `-ENODATA`, which is not
`-ENOENT`. -/
theorem C1_empty_sequence_empty_sid_counterexample :
    GetNextStageCR.operate ⟨fun _ => (CRState.done, [])⟩ "" "old"
        = (CRState.error (-ENODATA), "old")
      ∧ (GetNextStageCR.operate ⟨fun _ => (CRState.done, [])⟩ "" "old").1
        ≠ CRState.error (-ENOENT) := by
  decide

/-- C1, amended: when the stage listing succeeds with no stage ids and the input sid
is empty, `GetNextStageCR::operate` fails with `-ENODATA` (the flag `found` starts out
true and the loop body never runs) and `*next_sid` keeps its contents. -/
theorem C1_empty_sequence_empty_sid (mgr : SIProviderCRMgr) (next_sid : stage_id_t)
    (h : mgr.get_stages_cr [] = (CRState.done, [])) :
    GetNextStageCR.operate mgr "" next_sid = (CRState.error (-ENODATA), next_sid) := by
  rw [operate_of_done mgr [] "" next_sid h]
  exact scan_found_nil "" next_sid

/-- The amended C1 at a manager whose listing succeeds with no stages. -/
theorem C1_empty_sequence_empty_sid_witness :
    GetNextStageCR.operate ⟨fun _ => (CRState.done, [])⟩ "" "old"
      = (CRState.error (-ENODATA), "old") :=
  C1_empty_sequence_empty_sid ⟨fun _ => (CRState.done, [])⟩ "old" rfl

/-- C2, as stated, fails at two kinds of input. With stages `["a", "b", "a", "c"]` and
`i = 2` the sid `s_2 = "a"` yields `"b"`, the successor of its first occurrence, not
`s_3 = "c"`. With stages `["a", "", "b"]` and `i = 1` the sid `s_1 = ""` yields the
first stage `"a"`, not `s_2 = "b"`. -/
theorem C2_successor_counterexample :
    (GetNextStageCR.operate ⟨fun _ => (CRState.done, ["a", "b", "a", "c"])⟩ "a" "old"
        = (CRState.done, "b")
      ∧ ["a", "b", "a", "c"][2]? = some "a" ∧ ["a", "b", "a", "c"][3]? = some "c"
      ∧ ("b" : String) ≠ "c")
    ∧ (GetNextStageCR.operate ⟨fun _ => (CRState.done, ["a", "", "b"])⟩ "" "old"
        = (CRState.done, "a")
      ∧ ["a", "", "b"][1]? = some "" ∧ ["a", "", "b"][2]? = some "b"
      ∧ ("a" : String) ≠ "b") := by
  decide

/-- C2, amended: for every stage sequence `[s0..sn]` the listing succeeds with and
every index `i < n` such that `s_i` is not the empty string and does not occur among
`s_0..s_(i-1)`, `GetNextStageCR::operate` called with `sid = s_i` completes
successfully and writes `s_(i+1)` to `*next_sid`. -/
theorem C2_successor (mgr : SIProviderCRMgr) (stages : List stage_id_t) (i : Nat)
    (next_sid : stage_id_t)
    (h : mgr.get_stages_cr [] = (CRState.done, stages))
    (hi : i + 1 < stages.length)
    (hne : stages[i] ≠ "")
    (hfirst : stages[i] ∉ stages.take i) :
    GetNextStageCR.operate mgr stages[i] next_sid = (CRState.done, stages[i + 1]) := by
  rw [operate_of_done mgr stages _ next_sid h, isEmpty_eq_false_of_ne hne]
  have hsplit : stages = stages.take i ++ stages[i] :: stages[i + 1] :: stages.drop (i + 2) := by
    have h1 : stages.drop i = stages[i] :: stages.drop (i + 1) :=
      List.drop_eq_getElem_cons (by omega)
    have h2 : stages.drop (i + 1) = stages[i + 1] :: stages.drop (i + 2) :=
      List.drop_eq_getElem_cons hi
    calc stages = stages.take i ++ stages.drop i := (List.take_append_drop i stages).symm
      _ = stages.take i ++ stages[i] :: stages[i + 1] :: stages.drop (i + 2) := by
          rw [h1, h2]
  have hscan := scan_skip_prefix stages[i] next_sid
    (stages[i + 1] :: stages.drop (i + 2)) (stages.take i) hfirst
  rw [← hsplit] at hscan
  rw [hscan]
  exact scan_found_cons _ _ _ _

/-- The amended C2 at the stages of end-to-end scenario 1, with `i = 0`. -/
theorem C2_successor_witness :
    GetNextStageCR.operate ⟨fun _ => (CRState.done, ["meta.full", "meta.inc"])⟩
      "meta.full" "old" = (CRState.done, "meta.inc") :=
  C2_successor ⟨fun _ => (CRState.done, ["meta.full", "meta.inc"])⟩
    ["meta.full", "meta.inc"] 0 "old" rfl (by decide) (by decide) (by decide)

/-- C3, as stated, fails at two kinds of input. With stages `["a", ""]` the last stage
is the empty string, and the call with `sid = ""` completes successfully with the
first stage `"a"`. With stages `["a", "b", "a"]` the last stage `"a"` also occurs
first, and the call with `sid = "a"` completes successfully with `"b"`. -/
theorem C3_last_stage_counterexample :
    (GetNextStageCR.operate ⟨fun _ => (CRState.done, ["a", ""])⟩ "" "old"
        = (CRState.done, "a")
      ∧ ["a", ""].getLast? = some "")
    ∧ (GetNextStageCR.operate ⟨fun _ => (CRState.done, ["a", "b", "a"])⟩ "a" "old"
        = (CRState.done, "b")
      ∧ ["a", "b", "a"].getLast? = some "a") := by
  decide

/-- C3, amended: for every stage sequence `[s0..sn]` the listing succeeds with, whose
last stage `sn` is not the empty string and does not occur among `s_0..s_(n-1)`,
`GetNextStageCR::operate` called with `sid = sn` fails with `-ENODATA`, which is not
`-ENOENT`, and `*next_sid` keeps its contents. -/
theorem C3_last_stage (mgr : SIProviderCRMgr) (front : List stage_id_t)
    (sn next_sid : stage_id_t)
    (h : mgr.get_stages_cr [] = (CRState.done, front ++ [sn]))
    (hne : sn ≠ "")
    (hfirst : sn ∉ front) :
    GetNextStageCR.operate mgr sn next_sid = (CRState.error (-ENODATA), next_sid)
      ∧ (GetNextStageCR.operate mgr sn next_sid).1 ≠ CRState.error (-ENOENT) := by
  have hop : GetNextStageCR.operate mgr sn next_sid
      = (CRState.error (-ENODATA), next_sid) := by
    rw [operate_of_done mgr _ sn next_sid h, isEmpty_eq_false_of_ne hne,
      scan_skip_prefix sn next_sid [] front hfirst]
    exact scan_found_nil sn next_sid
  refine ⟨hop, ?_⟩
  rw [hop]
  show CRState.error _ ≠ CRState.error _
  intro hcode
  injection hcode with hcode
  revert hcode
  decide

/-- The amended C3 at the stages of end-to-end scenario 1. -/
theorem C3_last_stage_witness :
    GetNextStageCR.operate ⟨fun _ => (CRState.done, ["meta.full", "meta.inc"])⟩
        "meta.inc" "old" = (CRState.error (-ENODATA), "old")
      ∧ (GetNextStageCR.operate ⟨fun _ => (CRState.done, ["meta.full", "meta.inc"])⟩
        "meta.inc" "old").1 ≠ CRState.error (-ENOENT) :=
  C3_last_stage ⟨fun _ => (CRState.done, ["meta.full", "meta.inc"])⟩
    ["meta.full"] "meta.inc" "old" rfl (by decide) (by decide)

/-- C4: for every non-empty stage sequence `s0 :: rest` the listing succeeds with,
`GetNextStageCR::operate` called with the empty sid completes successfully and
writes the first element `s0` to `*next_sid`. -/
theorem C4_empty_sid_first_stage (mgr : SIProviderCRMgr) (s0 : stage_id_t)
    (rest : List stage_id_t) (next_sid : stage_id_t)
    (h : mgr.get_stages_cr [] = (CRState.done, s0 :: rest)) :
    GetNextStageCR.operate mgr "" next_sid = (CRState.done, s0) := by
  rw [operate_of_done mgr _ "" next_sid h]
  exact scan_found_cons "" s0 rest next_sid

/-- C4 at the stages of end-to-end scenario 1. -/
theorem C4_empty_sid_first_stage_witness :
    GetNextStageCR.operate ⟨fun _ => (CRState.done, ["meta.full", "meta.inc"])⟩ "" "old"
      = (CRState.done, "meta.full") :=
  C4_empty_sid_first_stage ⟨fun _ => (CRState.done, ["meta.full", "meta.inc"])⟩
    "meta.full" ["meta.inc"] "old" rfl

/-- C5: for every stage sequence the listing succeeds with (empty or not) and every
non-empty sid that occurs nowhere in it, `GetNextStageCR::operate` fails with
`-ENOENT`, not with `-ENODATA`, and `*next_sid` keeps its contents. -/
theorem C5_unknown_sid_not_found (mgr : SIProviderCRMgr) (stages : List stage_id_t)
    (sid next_sid : stage_id_t)
    (h : mgr.get_stages_cr [] = (CRState.done, stages))
    (hne : sid ≠ "")
    (habsent : sid ∉ stages) :
    GetNextStageCR.operate mgr sid next_sid = (CRState.error (-ENOENT), next_sid)
      ∧ (GetNextStageCR.operate mgr sid next_sid).1 ≠ CRState.error (-ENODATA) := by
  have hop : GetNextStageCR.operate mgr sid next_sid
      = (CRState.error (-ENOENT), next_sid) := by
    rw [operate_of_done mgr stages sid next_sid h, isEmpty_eq_false_of_ne hne]
    exact scan_absent sid next_sid stages habsent
  refine ⟨hop, ?_⟩
  rw [hop]
  show CRState.error _ ≠ CRState.error _
  intro hcode
  injection hcode with hcode
  revert hcode
  decide

/-- C5 at the stages of end-to-end scenario 1 and the sid `bogus`. -/
theorem C5_unknown_sid_not_found_witness :
    GetNextStageCR.operate ⟨fun _ => (CRState.done, ["meta.full", "meta.inc"])⟩
        "bogus" "old" = (CRState.error (-ENOENT), "old")
      ∧ (GetNextStageCR.operate ⟨fun _ => (CRState.done, ["meta.full", "meta.inc"])⟩
        "bogus" "old").1 ≠ CRState.error (-ENODATA) :=
  C5_unknown_sid_not_found ⟨fun _ => (CRState.done, ["meta.full", "meta.inc"])⟩
    ["meta.full", "meta.inc"] "bogus" "old" rfl (by decide) (by decide)

/-- C6: if the stage listing fails with a negative code `r`, whatever it left in the
vector, `GetNextStageCR::operate` fails with exactly `r` for every input sid and
`*next_sid` keeps its contents. -/
theorem C6_list_stages_error_propagates (mgr : SIProviderCRMgr) (r : Int)
    (stages : List stage_id_t) (sid next_sid : stage_id_t)
    (hr : r < 0)
    (h : mgr.get_stages_cr [] = (CRState.error r, stages)) :
    GetNextStageCR.operate mgr sid next_sid = (CRState.error r, next_sid) := by
  simp [GetNextStageCR.operate, h, CRState.retcode, hr, set_cr_error]

/-- C6 at a listing that fails with `-EIO` after it wrote one stage id. -/
theorem C6_list_stages_error_propagates_witness :
    GetNextStageCR.operate ⟨fun _ => (CRState.error (-5), ["partial"])⟩ "partial" "old"
      = (CRState.error (-5), "old") :=
  C6_list_stages_error_propagates ⟨fun _ => (CRState.error (-5), ["partial"])⟩ (-5)
    ["partial"] "partial" "old" (by decide) rfl

/-! ## Dispatchers: the claims -/

/-- C7: for `RGWSafeRetAsyncCR<T>` and every wrapped function that returns status `st`
and leaves `v` in the result buffer: if `st < 0` the coroutine fails with `st` and the
caller's output slot is as it was; if `st >= 0` the coroutine completes successfully,
a non-null output slot holds exactly `v` and a null one stays null. -/
theorem C7_single_result_dispatch {T : Type} [Inhabited T] (cr : RGWSafeRetAsyncCR T)
    (st : Int) (v : T) (h : cr.cb default = (st, v)) :
    (st < 0 → cr.operate = (CRState.error st, cr.pret))
      ∧ (0 ≤ st → cr.operate.1 = CRState.done
          ∧ (cr.pret.isSome → cr.operate.2 = some v)
          ∧ (cr.pret = none → cr.operate.2 = none)) := by
  refine ⟨safe_ret_operate_error cr st v h, fun hst => ?_⟩
  rw [safe_ret_operate_done cr st v h hst]
  refine ⟨rfl, ?_, ?_⟩
  · intro hsome
    cases hp : cr.pret with
    | none => rw [hp] at hsome; exact absurd hsome (by simp)
    | some old => rfl
  · intro hnone
    rw [hnone]

/-- C7 at a wrapped function that fails with `-EIO` and at one that succeeds. -/
theorem C7_single_result_dispatch_witness :
    RGWSafeRetAsyncCR.operate ({ pret := some 1, cb := fun _ => (-5, 7) } :
        RGWSafeRetAsyncCR Nat) = (CRState.error (-5), some 1)
      ∧ (RGWSafeRetAsyncCR.operate ({ pret := some 1, cb := fun _ => (0, 7) } :
        RGWSafeRetAsyncCR Nat)).2 = some 7 :=
  ⟨(C7_single_result_dispatch { pret := some 1, cb := fun _ => (-5, 7) } (-5) 7 rfl).1
      (by decide),
    ((C7_single_result_dispatch { pret := some 1, cb := fun _ => (0, 7) } 0 7 rfl).2
      (by decide)).2.1 rfl⟩

/-- C9: for the REST manager and every status response (start, current, disabled)
received with a non-negative retcode: the coroutine of `get_start_marker_cr` completes
successfully, its output holds the response's `start`, and its `cur_pos` and
`disabled` pointers are null before and after, so nothing is written there; the
coroutine of `get_cur_state_cr` completes successfully, its outputs hold the
response's `current` and `disabled`, and its `start_pos` pointer is null before and
after. A null output pointer stays null. -/
theorem C9_status_selective_outputs (sid : stage_id_t) (shard_id : Int)
    (pos : Option rgw_sip_pos) (disabled : Option Bool)
    (reply : RESTReply SIProviderRESTCRs.GetStagesStatusCR.Status)
    (hok : 0 ≤ reply.retcode) :
    (SIProviderCRMgr_REST.get_start_marker_cr sid shard_id pos).operate reply
        = (CRState.done,
            { start_pos := pos.map (fun _ => reply.result.markers.start),
              cur_pos := none,
              disabled := none })
      ∧ (SIProviderCRMgr_REST.get_cur_state_cr sid shard_id pos disabled).operate reply
        = (CRState.done,
            { start_pos := none,
              cur_pos := pos.map (fun _ => reply.result.markers.current),
              disabled := disabled.map (fun _ => reply.result.disabled) }) := by
  have hn : ¬ reply.retcode < 0 := not_lt.mpr hok
  constructor
  · cases pos <;>
      simp [SIProviderCRMgr_REST.get_start_marker_cr,
        SIProviderRESTCRs.GetStagesStatusCR.operate, hn, set_cr_done]
  · cases pos <;> cases disabled <;>
      simp [SIProviderCRMgr_REST.get_cur_state_cr,
        SIProviderRESTCRs.GetStagesStatusCR.operate, hn, set_cr_done]

/-- C9 at one status response with distinct start and current positions. -/
theorem C9_status_selective_outputs_witness :
    (SIProviderCRMgr_REST.get_start_marker_cr "meta.inc" 0
        (some { marker := "old", timestamp := none })).operate
        { retcode := 0,
          result := { markers := { start := { marker := "s1", timestamp := some 1 },
                                   current := { marker := "c9", timestamp := some 9 } },
                      disabled := true } }
      = (CRState.done,
          { start_pos := some { marker := "s1", timestamp := some 1 },
            cur_pos := none,
            disabled := none })
    ∧ (SIProviderCRMgr_REST.get_cur_state_cr "meta.inc" 0
        (some { marker := "old", timestamp := none }) (some false)).operate
        { retcode := 0,
          result := { markers := { start := { marker := "s1", timestamp := some 1 },
                                   current := { marker := "c9", timestamp := some 9 } },
                      disabled := true } }
      = (CRState.done,
          { start_pos := none,
            cur_pos := some { marker := "c9", timestamp := some 9 },
            disabled := some true }) :=
  C9_status_selective_outputs "meta.inc" 0 (some { marker := "old", timestamp := none })
    (some false)
    { retcode := 0,
      result := { markers := { start := { marker := "s1", timestamp := some 1 },
                               current := { marker := "c9", timestamp := some 9 } },
                  disabled := true } }
    (by decide)

/-- C10: for the REST manager and every provider info received with a non-negative
retcode: `GetStageInfoCR::operate` completes successfully iff some stage of the info
has id `sid`; the output then is the first such stage info, whose sid is `sid`;
otherwise it fails with `-ENOENT` and `*sinfo` keeps its contents. -/
theorem C10_get_stage_info (reply : RESTReply SIProvider.Info) (sid : stage_id_t)
    (sinfo : SIProvider.StageInfo) (hok : 0 ≤ reply.retcode) :
    ((SIProviderRESTCRs.GetStageInfoCR.operate reply sid sinfo).1 = CRState.done
        ↔ ∃ si ∈ reply.result.stages, si.sid = sid)
      ∧ (∀ (front : List SIProvider.StageInfo) (si : SIProvider.StageInfo)
          (back : List SIProvider.StageInfo),
          reply.result.stages = front ++ si :: back →
          (∀ x ∈ front, x.sid ≠ sid) → si.sid = sid →
          SIProviderRESTCRs.GetStageInfoCR.operate reply sid sinfo = (CRState.done, si)
            ∧ (SIProviderRESTCRs.GetStageInfoCR.operate reply sid sinfo).2.sid = sid)
      ∧ ((∀ si ∈ reply.result.stages, si.sid ≠ sid) →
          SIProviderRESTCRs.GetStageInfoCR.operate reply sid sinfo
            = (CRState.error (-ENOENT), sinfo)) := by
  rw [stage_info_operate_of_ok reply sid sinfo hok]
  refine ⟨stage_info_scan_done_iff sid sinfo reply.result.stages, ?_, ?_⟩
  · intro front si back hsplit hfront hsi
    rw [hsplit, stage_info_scan_first sid sinfo si back hsi front hfront]
    exact ⟨rfl, hsi⟩
  · exact stage_info_scan_absent sid sinfo reply.result.stages

/-- C10 at the provider of end-to-end scenario 1: `meta.inc` is found, `bogus` is not. -/
theorem C10_get_stage_info_witness :
    SIProviderRESTCRs.GetStageInfoCR.operate
        { retcode := 0,
          result := { name := "meta", instance_id := none,
                      stages := [⟨"meta.full", SIProvider.StageType.FULL, 1, "meta"⟩,
                                 ⟨"meta.inc", SIProvider.StageType.INC, 4, "meta"⟩] } }
        "meta.inc" ⟨"", SIProvider.StageType.FULL, 0, ""⟩
      = (CRState.done, ⟨"meta.inc", SIProvider.StageType.INC, 4, "meta"⟩)
    ∧ SIProviderRESTCRs.GetStageInfoCR.operate
        { retcode := 0,
          result := { name := "meta", instance_id := none,
                      stages := [⟨"meta.full", SIProvider.StageType.FULL, 1, "meta"⟩,
                                 ⟨"meta.inc", SIProvider.StageType.INC, 4, "meta"⟩] } }
        "bogus" ⟨"", SIProvider.StageType.FULL, 0, ""⟩
      = (CRState.error (-ENOENT), ⟨"", SIProvider.StageType.FULL, 0, ""⟩) :=
  ⟨((C10_get_stage_info
        { retcode := 0,
          result := { name := "meta", instance_id := none,
                      stages := [⟨"meta.full", SIProvider.StageType.FULL, 1, "meta"⟩,
                                 ⟨"meta.inc", SIProvider.StageType.INC, 4, "meta"⟩] } }
        "meta.inc" ⟨"", SIProvider.StageType.FULL, 0, ""⟩ (by decide)).2.1
      [⟨"meta.full", SIProvider.StageType.FULL, 1, "meta"⟩]
      ⟨"meta.inc", SIProvider.StageType.INC, 4, "meta"⟩ [] rfl (by decide) rfl).1,
    (C10_get_stage_info
        { retcode := 0,
          result := { name := "meta", instance_id := none,
                      stages := [⟨"meta.full", SIProvider.StageType.FULL, 1, "meta"⟩,
                                 ⟨"meta.inc", SIProvider.StageType.INC, 4, "meta"⟩] } }
        "bogus" ⟨"", SIProvider.StageType.FULL, 0, ""⟩ (by decide)).2.2 (by decide)⟩

/-! ## REST fetch: the claims -/

/-- C11, as stated, fails: with a body that parses and a decoder that returns `-22`,
`FetchCR::operate` fails with `-22`, which is not `-EIO`. -/
theorem C11_decode_failure_counterexample :
    (SIProviderRESTCRs.FetchCR.operate
        ({ sid := "meta.inc", parse := fun body => some body,
           type_handler := some ⟨fun _ _ result => (-22, result)⟩ } :
          SIProviderRESTCRs.FetchCR String)
        { retcode := 0, result := "[]" }
        { entries := [], more := false, marker := "" }).1 = CRState.error (-22)
      ∧ CRState.error (-22) ≠ CRState.error (- EIO) := by
  decide

/-- C11, amended: in REST fetch, for a body received with a non-negative retcode: a
body that is not parseable JSON makes `FetchCR::operate` fail with `-EIO` and leaves
`*result` alone; a decoder of the type handler that returns a negative status `r`
makes it fail with exactly `r`. -/
theorem C11_decode_failure {J : Type} (cr : SIProviderRESTCRs.FetchCR J)
    (reply : RESTReply String) (result : SIProvider.fetch_result)
    (hok : 0 ≤ reply.retcode) :
    (cr.parse reply.result = none →
        cr.operate reply result = (CRState.error (- EIO), result))
      ∧ (∀ (p : J) (th : SIProvider.TypeHandler J),
          cr.parse reply.result = some p → cr.type_handler = some th →
          (th.decode_json_results cr.sid p result).1 < 0 →
          (cr.operate reply result).1
            = CRState.error (th.decode_json_results cr.sid p result).1) := by
  rw [fetch_operate_of_ok cr reply result hok]
  constructor
  · intro hparse
    rw [hparse]
  · intro p th hparse hth hr
    rw [hparse, hth]
    simp only [hr, if_true]

/-- The amended C11 at a body that does not parse and at a decoder that returns `-22`. -/
theorem C11_decode_failure_witness :
    SIProviderRESTCRs.FetchCR.operate
        ({ sid := "meta.inc", parse := fun _ => none,
           type_handler := some ⟨fun _ _ result => (0, result)⟩ } :
          SIProviderRESTCRs.FetchCR String)
        { retcode := 0, result := "not json" }
        { entries := ["old"], more := false, marker := "m0" }
      = (CRState.error (- EIO), { entries := ["old"], more := false, marker := "m0" })
    ∧ (SIProviderRESTCRs.FetchCR.operate
        ({ sid := "meta.inc", parse := fun body => some body,
           type_handler := some ⟨fun _ _ result => (-22, result)⟩ } :
          SIProviderRESTCRs.FetchCR String)
        { retcode := 0, result := "[]" }
        { entries := ["old"], more := false, marker := "m0" }).1 = CRState.error (-22) :=
  ⟨(C11_decode_failure
        ({ sid := "meta.inc", parse := fun _ => none,
           type_handler := some ⟨fun _ _ result => (0, result)⟩ } :
          SIProviderRESTCRs.FetchCR String)
        { retcode := 0, result := "not json" }
        { entries := ["old"], more := false, marker := "m0" } (by decide)).1 rfl,
    (C11_decode_failure
        ({ sid := "meta.inc", parse := fun body => some body,
           type_handler := some ⟨fun _ _ result => (-22, result)⟩ } :
          SIProviderRESTCRs.FetchCR String)
        { retcode := 0, result := "[]" }
        { entries := ["old"], more := false, marker := "m0" } (by decide)).2
      "[]" ⟨fun _ _ result => (-22, result)⟩ rfl rfl (by decide)⟩

/-- C12, as stated, fails: `FetchCR::operate` hands the caller's `*result` to the
decoder, so a decoder that attaches one entry and then returns `-22` makes the
operation fail with that entry in the caller's output. -/
theorem C12_fetch_failure_output_counterexample :
    SIProviderRESTCRs.FetchCR.operate
        ({ sid := "meta.inc", parse := fun body => some body,
           type_handler := some ⟨fun _ _ result =>
             (-22, { entries := result.entries ++ ["e1"], more := result.more,
                     marker := result.marker })⟩ } :
          SIProviderRESTCRs.FetchCR String)
        { retcode := 0, result := "[]" }
        { entries := [], more := false, marker := "" }
      = (CRState.error (-22), { entries := ["e1"], more := false, marker := "" })
    ∧ ({ entries := ["e1"], more := false, marker := "" } : SIProvider.fetch_result)
      ≠ { entries := [], more := false, marker := "" } := by
  decide

/-- C12, amended: in REST fetch, when the operation fails before the decoder runs (a
negative retcode of the request, a body that is not parseable JSON, a null type
handler) the caller's `*result` is exactly what it was before the call; when the
decoder returns a negative status the operation fails with `*result` holding what the
decoder left in it, so the output is what it was exactly when the decoder did not
write. -/
theorem C12_fetch_failure_output {J : Type} (cr : SIProviderRESTCRs.FetchCR J)
    (reply : RESTReply String) (result : SIProvider.fetch_result) :
    (reply.retcode < 0 →
        cr.operate reply result = (CRState.error reply.retcode, result))
      ∧ (0 ≤ reply.retcode → cr.parse reply.result = none →
        cr.operate reply result = (CRState.error (- EIO), result))
      ∧ (0 ≤ reply.retcode → cr.parse reply.result ≠ none → cr.type_handler = none →
        cr.operate reply result = (CRState.error (- EIO), result))
      ∧ (∀ (p : J) (th : SIProvider.TypeHandler J),
          0 ≤ reply.retcode → cr.parse reply.result = some p → cr.type_handler = some th →
          (th.decode_json_results cr.sid p result).1 < 0 →
          (cr.operate reply result).1 ≠ CRState.done
            ∧ (cr.operate reply result).2 = (th.decode_json_results cr.sid p result).2) := by
  refine ⟨?_, ?_, ?_, ?_⟩
  · intro hneg
    simp [SIProviderRESTCRs.FetchCR.operate, hneg, set_cr_error]
  · intro hok hparse
    rw [fetch_operate_of_ok cr reply result hok, hparse]
  · intro hok hparse hth
    rw [fetch_operate_of_ok cr reply result hok, hth]
    cases hp : cr.parse reply.result with
    | none => exact absurd hp hparse
    | some p => rfl
  · intro p th hok hparse hth hr
    rw [fetch_operate_of_ok cr reply result hok, hparse, hth]
    dsimp only
    rw [if_pos hr]
    exact ⟨fun hdone => CRState.noConfusion hdone, rfl⟩

/-- The amended C12 at a request that fails with `-EIO` and at a decoder that fails
after attaching one entry. -/
theorem C12_fetch_failure_output_witness :
    SIProviderRESTCRs.FetchCR.operate
        ({ sid := "meta.inc", parse := fun body => some body,
           type_handler := some ⟨fun _ _ result => (0, result)⟩ } :
          SIProviderRESTCRs.FetchCR String)
        { retcode := -5, result := "" }
        { entries := ["old"], more := false, marker := "m0" }
      = (CRState.error (-5), { entries := ["old"], more := false, marker := "m0" })
    ∧ (SIProviderRESTCRs.FetchCR.operate
        ({ sid := "meta.inc", parse := fun body => some body,
           type_handler := some ⟨fun _ _ result =>
             (-22, { entries := result.entries ++ ["e1"], more := result.more,
                     marker := result.marker })⟩ } :
          SIProviderRESTCRs.FetchCR String)
        { retcode := 0, result := "[]" }
        { entries := ["old"], more := false, marker := "m0" }).2
      = { entries := ["old", "e1"], more := false, marker := "m0" } :=
  ⟨(C12_fetch_failure_output
        ({ sid := "meta.inc", parse := fun body => some body,
           type_handler := some ⟨fun _ _ result => (0, result)⟩ } :
          SIProviderRESTCRs.FetchCR String)
        { retcode := -5, result := "" }
        { entries := ["old"], more := false, marker := "m0" }).1 (by decide),
    ((C12_fetch_failure_output
        ({ sid := "meta.inc", parse := fun body => some body,
           type_handler := some ⟨fun _ _ result =>
             (-22, { entries := result.entries ++ ["e1"], more := result.more,
                     marker := result.marker })⟩ } :
          SIProviderRESTCRs.FetchCR String)
        { retcode := 0, result := "[]" }
        { entries := ["old"], more := false, marker := "m0" }).2.2.2
      "[]" ⟨fun _ _ result =>
             (-22, { entries := result.entries ++ ["e1"], more := result.more,
                     marker := result.marker })⟩ (by decide) rfl rfl (by decide)).2⟩

/-! ## REST request parameters: the claims -/

/-- C13: for every setting of the optional filters (instance, remote provider name,
data-type, stage-type), set or unset, the parameter list of each of the five REST
requests (info, fetch, status, trim, update-marker) holds no parameter whose key is
empty. In the `pairs[]` array itself an empty key occurs only with an empty value: it
stands for an unset filter. -/
theorem C13_no_empty_key (mgr : SIProviderCRMgr_REST) (sid : stage_id_t)
    (shard_id max : Int) (marker : String) :
    ((∀ p ∈ request_params (SIProviderRESTCRs.GetStagesInfoCR.pairs mgr), p.1 ≠ "")
      ∧ (∀ p ∈ request_params (SIProviderRESTCRs.FetchCR.pairs mgr sid shard_id marker max),
          p.1 ≠ "")
      ∧ (∀ p ∈ request_params (SIProviderRESTCRs.GetStagesStatusCR.pairs mgr sid shard_id),
          p.1 ≠ "")
      ∧ (∀ p ∈ request_params (SIProviderRESTCRs.TrimCR.pairs mgr sid shard_id marker),
          p.1 ≠ "")
      ∧ (∀ p ∈ request_params (SIProviderRESTCRs.UpdateMarkerCR.pairs mgr sid shard_id),
          p.1 ≠ ""))
    ∧ ((∀ q ∈ SIProviderRESTCRs.GetStagesInfoCR.pairs mgr, q.key = some "" → q.val = some "")
      ∧ (∀ q ∈ SIProviderRESTCRs.FetchCR.pairs mgr sid shard_id marker max,
          q.key = some "" → q.val = some "")
      ∧ (∀ q ∈ SIProviderRESTCRs.GetStagesStatusCR.pairs mgr sid shard_id,
          q.key = some "" → q.val = some "")
      ∧ (∀ q ∈ SIProviderRESTCRs.TrimCR.pairs mgr sid shard_id marker,
          q.key = some "" → q.val = some "")
      ∧ (∀ q ∈ SIProviderRESTCRs.UpdateMarkerCR.pairs mgr sid shard_id,
          q.key = some "" → q.val = some "")) := by
  refine ⟨⟨?_, ?_, ?_, ?_, ?_⟩, ⟨?_, ?_, ?_, ?_, ?_⟩⟩
  · exact fun p hp => (request_params_sound _ p hp).1
  · exact fun p hp => (request_params_sound _ p hp).1
  · exact fun p hp => (request_params_sound _ p hp).1
  · exact fun p hp => (request_params_sound _ p hp).1
  · exact fun p hp => (request_params_sound _ p hp).1
  · intro q hq hkey
    simp only [SIProviderRESTCRs.GetStagesInfoCR.pairs, List.mem_cons, List.mem_singleton,
      List.mem_nil_iff, or_false] at hq
    rcases hq with h | h | h | h | h | h <;> subst h <;>
      cases hi : mgr.instance_id <;> cases hp : mgr.remote_provider_name <;>
      cases hd : mgr.data_type <;> cases hs : mgr.stage_type <;> simp_all
  · intro q hq hkey
    simp only [SIProviderRESTCRs.FetchCR.pairs, List.mem_cons, List.mem_singleton,
      List.mem_nil_iff, or_false] at hq
    rcases hq with h | h | h | h | h | h | h <;> subst h <;>
      cases hi : mgr.instance_id <;> simp_all
  · intro q hq hkey
    simp only [SIProviderRESTCRs.GetStagesStatusCR.pairs, List.mem_cons, List.mem_singleton,
      List.mem_nil_iff, or_false] at hq
    rcases hq with h | h | h | h | h | h <;> subst h <;>
      cases hi : mgr.instance_id <;> simp_all
  · intro q hq hkey
    simp only [SIProviderRESTCRs.TrimCR.pairs, List.mem_cons, List.mem_singleton,
      List.mem_nil_iff, or_false] at hq
    rcases hq with h | h | h | h | h | h <;> subst h <;>
      cases hi : mgr.instance_id <;> simp_all
  · intro q hq hkey
    simp only [SIProviderRESTCRs.UpdateMarkerCR.pairs, List.mem_cons, List.mem_singleton,
      List.mem_nil_iff, or_false] at hq
    rcases hq with h | h | h | h | h | h <;> subst h <;>
      cases hi : mgr.instance_id <;> simp_all

/-- C13 at an info request with only the data-type filter set: the parameters are
`info` and `data-type` and nothing else, and the entry of an unset filter in `pairs[]`
has an empty value. -/
theorem C13_no_empty_key_witness :
    request_params (SIProviderRESTCRs.GetStagesInfoCR.pairs
        { remote_provider_name := none, instance_id := none, data_type := some "meta",
          stage_type := none,
          info := { name := "meta", instance_id := none, stages := [] } })
      = [("info", none), ("data-type", some "meta")]
    ∧ (("data-type", some "meta") : String × Option String).1 ≠ ""
    ∧ ({ key := some "", val := some "" } : rgw_http_param_pair).val = some "" :=
  ⟨by decide,
    (C13_no_empty_key
        { remote_provider_name := none, instance_id := none, data_type := some "meta",
          stage_type := none,
          info := { name := "meta", instance_id := none, stages := [] } }
        "meta.inc" 0 100 "m7").1.1 ("data-type", some "meta") (by decide),
    (C13_no_empty_key
        { remote_provider_name := none, instance_id := none, data_type := some "meta",
          stage_type := none,
          info := { name := "meta", instance_id := none, stages := [] } }
        "meta.inc" 0 100 "m7").2.1 { key := some "", val := some "" } (by decide) rfl⟩

/-- C14: no parameter of any of the five REST requests has the empty string as its
value. A fetch or a trim issued with an empty marker string, or with any marker whose
C string is empty, carries no `marker` parameter; one issued with a marker whose C
string is not empty carries `marker` with that C string as its value. -/
theorem C14_empty_value_omitted (mgr : SIProviderCRMgr_REST) (sid : stage_id_t)
    (shard_id max : Int) (marker : String) :
    ((∀ p ∈ request_params (SIProviderRESTCRs.GetStagesInfoCR.pairs mgr), p.2 ≠ some "")
      ∧ (∀ p ∈ request_params (SIProviderRESTCRs.FetchCR.pairs mgr sid shard_id marker max),
          p.2 ≠ some "")
      ∧ (∀ p ∈ request_params (SIProviderRESTCRs.GetStagesStatusCR.pairs mgr sid shard_id),
          p.2 ≠ some "")
      ∧ (∀ p ∈ request_params (SIProviderRESTCRs.TrimCR.pairs mgr sid shard_id marker),
          p.2 ≠ some "")
      ∧ (∀ p ∈ request_params (SIProviderRESTCRs.UpdateMarkerCR.pairs mgr sid shard_id),
          p.2 ≠ some ""))
    ∧ ("marker" ∉ (request_params
            (SIProviderRESTCRs.FetchCR.pairs mgr sid shard_id "" max)).map Prod.fst
      ∧ "marker" ∉ (request_params
            (SIProviderRESTCRs.TrimCR.pairs mgr sid shard_id "")).map Prod.fst)
    ∧ (c_str marker = "" →
        "marker" ∉ (request_params
            (SIProviderRESTCRs.FetchCR.pairs mgr sid shard_id marker max)).map Prod.fst
          ∧ "marker" ∉ (request_params
            (SIProviderRESTCRs.TrimCR.pairs mgr sid shard_id marker)).map Prod.fst)
    ∧ (c_str marker ≠ "" →
        ("marker", some (c_str marker))
            ∈ request_params (SIProviderRESTCRs.FetchCR.pairs mgr sid shard_id marker max)
          ∧ ("marker", some (c_str marker))
            ∈ request_params (SIProviderRESTCRs.TrimCR.pairs mgr sid shard_id marker)) := by
  have hfetch : ∀ m : String, c_str m = "" →
      "marker" ∉ (request_params
        (SIProviderRESTCRs.FetchCR.pairs mgr sid shard_id m max)).map Prod.fst := by
    intro m hm hin
    obtain ⟨p, hp, hkey⟩ := List.mem_map.mp hin
    obtain ⟨_, hv, hmem⟩ := request_params_sound _ p hp
    rw [hkey] at hmem
    simp only [SIProviderRESTCRs.FetchCR.pairs, List.mem_cons, List.mem_singleton,
      List.mem_nil_iff, or_false, rgw_http_param_pair.mk.injEq] at hmem
    rcases hmem with h | h | h | h | h | h | h
    · exact absurd h.1 (by decide)
    · cases hi : mgr.instance_id <;> simp [hi] at h
    · exact absurd h.1 (by decide)
    · exact absurd h.1 (by decide)
    · exact absurd h.1 (by decide)
    · exact hv (by rw [h.2, hm])
    · exact absurd h.1 (by decide)
  have htrim : ∀ m : String, c_str m = "" →
      "marker" ∉ (request_params
        (SIProviderRESTCRs.TrimCR.pairs mgr sid shard_id m)).map Prod.fst := by
    intro m hm hin
    obtain ⟨p, hp, hkey⟩ := List.mem_map.mp hin
    obtain ⟨_, hv, hmem⟩ := request_params_sound _ p hp
    rw [hkey] at hmem
    simp only [SIProviderRESTCRs.TrimCR.pairs, List.mem_cons, List.mem_singleton,
      List.mem_nil_iff, or_false, rgw_http_param_pair.mk.injEq] at hmem
    rcases hmem with h | h | h | h | h | h
    · exact absurd h.1 (by decide)
    · cases hi : mgr.instance_id <;> simp [hi] at h
    · exact absurd h.1 (by decide)
    · exact absurd h.1 (by decide)
    · exact hv (by rw [h.2, hm])
    · exact absurd h.1 (by decide)
  have hempty : c_str "" = "" := by decide
  refine ⟨⟨?_, ?_, ?_, ?_, ?_⟩, ⟨hfetch "" hempty, htrim "" hempty⟩,
    fun hm => ⟨hfetch marker hm, htrim marker hm⟩, ?_⟩
  · exact fun p hp => (request_params_sound _ p hp).2.1
  · exact fun p hp => (request_params_sound _ p hp).2.1
  · exact fun p hp => (request_params_sound _ p hp).2.1
  · exact fun p hp => (request_params_sound _ p hp).2.1
  · exact fun p hp => (request_params_sound _ p hp).2.1
  · intro hm
    have hv : some (c_str marker) ≠ some "" := fun h => hm (Option.some.inj h)
    constructor
    · have hsplit : SIProviderRESTCRs.FetchCR.pairs mgr sid shard_id marker max
          = (SIProviderRESTCRs.FetchCR.pairs mgr sid shard_id marker max).take 5
            ++ { key := some "marker", val := some (c_str marker) }
              :: [{ key := none, val := none }] := by
        simp [SIProviderRESTCRs.FetchCR.pairs]
      rw [hsplit]
      exact request_params_complete "marker" (some (c_str marker))
        [{ key := none, val := none }] (by decide) hv _
        (by simp [SIProviderRESTCRs.FetchCR.pairs])
    · have hsplit : SIProviderRESTCRs.TrimCR.pairs mgr sid shard_id marker
          = (SIProviderRESTCRs.TrimCR.pairs mgr sid shard_id marker).take 4
            ++ { key := some "marker", val := some (c_str marker) }
              :: [{ key := none, val := none }] := by
        simp [SIProviderRESTCRs.TrimCR.pairs]
      rw [hsplit]
      exact request_params_complete "marker" (some (c_str marker))
        [{ key := none, val := none }] (by decide) hv _
        (by simp [SIProviderRESTCRs.TrimCR.pairs])

/-- C14 at a manager with the instance filter set: a fetch with an empty marker has
exactly the five other parameters and no `marker`; so has a fetch whose marker starts
with a NUL; a trim with an empty marker has no `marker`; a fetch and a trim with the
marker `m7` carry it. -/
theorem C14_empty_value_omitted_witness :
    request_params (SIProviderRESTCRs.FetchCR.pairs
            { remote_provider_name := none, instance_id := some "i1", data_type := none,
              stage_type := none,
              info := { name := "meta", instance_id := none, stages := [] } }
            "meta.inc" 0 "" 100)
        = [("provider", some "meta"), ("instance", some "i1"),
           ("stage-id", some "meta.inc"), ("shard-id", some "0"), ("max", some "100")]
      ∧ "marker" ∉ (request_params (SIProviderRESTCRs.FetchCR.pairs
            { remote_provider_name := none, instance_id := some "i1", data_type := none,
              stage_type := none,
              info := { name := "meta", instance_id := none, stages := [] } }
            "meta.inc" 0 "" 100)).map Prod.fst
      ∧ "marker" ∉ (request_params (SIProviderRESTCRs.TrimCR.pairs
            { remote_provider_name := none, instance_id := some "i1", data_type := none,
              stage_type := none,
              info := { name := "meta", instance_id := none, stages := [] } }
            "meta.inc" 0 "")).map Prod.fst
      ∧ "marker" ∉ (request_params (SIProviderRESTCRs.FetchCR.pairs
            { remote_provider_name := none, instance_id := some "i1", data_type := none,
              stage_type := none,
              info := { name := "meta", instance_id := none, stages := [] } }
            "meta.inc" 0 "\x00m7" 100)).map Prod.fst
      ∧ ("marker", some "m7")
        ∈ request_params (SIProviderRESTCRs.FetchCR.pairs
            { remote_provider_name := none, instance_id := some "i1", data_type := none,
              stage_type := none,
              info := { name := "meta", instance_id := none, stages := [] } }
            "meta.inc" 0 "m7" 100)
      ∧ ("marker", some "m7")
        ∈ request_params (SIProviderRESTCRs.TrimCR.pairs
            { remote_provider_name := none, instance_id := some "i1", data_type := none,
              stage_type := none,
              info := { name := "meta", instance_id := none, stages := [] } }
            "meta.inc" 0 "m7") :=
  ⟨by decide,
    (C14_empty_value_omitted
      { remote_provider_name := none, instance_id := some "i1", data_type := none,
              stage_type := none,
              info := { name := "meta", instance_id := none, stages := [] } }
      "meta.inc" 0 100 "").2.1.1,
    (C14_empty_value_omitted
      { remote_provider_name := none, instance_id := some "i1", data_type := none,
              stage_type := none,
              info := { name := "meta", instance_id := none, stages := [] } }
      "meta.inc" 0 100 "").2.1.2,
    ((C14_empty_value_omitted
      { remote_provider_name := none, instance_id := some "i1", data_type := none,
              stage_type := none,
              info := { name := "meta", instance_id := none, stages := [] } }
      "meta.inc" 0 100 "\x00m7").2.2.1 (by decide)).1,
    ((C14_empty_value_omitted
      { remote_provider_name := none, instance_id := some "i1", data_type := none,
              stage_type := none,
              info := { name := "meta", instance_id := none, stages := [] } }
      "meta.inc" 0 100 "m7").2.2.2 (by decide)).1,
    ((C14_empty_value_omitted
      { remote_provider_name := none, instance_id := some "i1", data_type := none,
              stage_type := none,
              info := { name := "meta", instance_id := none, stages := [] } }
      "meta.inc" 0 100 "m7").2.2.2 (by decide)).2⟩

/-! ## Local marker operations: the claim -/

/-- C15, as stated, fails in its last part: a resolved handler whose `set_marker`
returns `-5` makes the wrapped call return `-5`, the very code `-EIO` that an
unresolved handler yields. -/
theorem C15_marker_handler_counterexample :
    ((SIProviderCRMgr_Local.update_marker_cr (some ⟨fun _ _ _ => -5, fun _ _ _ => 0⟩)
        "meta.inc" 0 { marker := "m7", min_source_pos := none, flags := 0 }).cb []).1
      = ((SIProviderCRMgr_Local.update_marker_cr none
        "meta.inc" 0 { marker := "m7", min_source_pos := none, flags := 0 }).cb []).1
    ∧ ((SIProviderCRMgr_Local.update_marker_cr (some ⟨fun _ _ _ => -5, fun _ _ _ => 0⟩)
        "meta.inc" 0 { marker := "m7", min_source_pos := none, flags := 0 }).cb [])
      = (- EIO, [RGWSI_SIP_Marker.HandlerCall.set_marker "meta.inc" 0
          { marker := "m7", min_source_pos := none, flags := 0 }]) := by
  decide

/-- C15, amended: for the wrapped calls of `update_marker_cr` and
`set_min_source_pos_cr`: with an unresolved handler the call returns `-EIO` and the
handler trace is as it was; with a resolved handler the handler method is invoked
once and the call returns its status `r` when `r < 0` and `0` otherwise. With a
resolved handler the call returns `-EIO` exactly when the handler method itself
returned `-EIO`, so the two causes share that one code and differ in every other. -/
theorem C15_marker_handler (handler : RGWSI_SIP_Marker.Handler) (sid : stage_id_t)
    (shard_id : Int) (params : RGWSI_SIP_Marker.SetParams) (pos : String)
    (calls : List RGWSI_SIP_Marker.HandlerCall) :
    ((SIProviderCRMgr_Local.update_marker_cr none sid shard_id params).cb calls
        = (- EIO, calls)
      ∧ (SIProviderCRMgr_Local.set_min_source_pos_cr none sid shard_id pos).cb calls
        = (- EIO, calls))
    ∧ ((SIProviderCRMgr_Local.update_marker_cr (some handler) sid shard_id params).cb calls
        = (if handler.set_marker sid shard_id params < 0
            then handler.set_marker sid shard_id params else 0,
          calls ++ [RGWSI_SIP_Marker.HandlerCall.set_marker sid shard_id params])
      ∧ (SIProviderCRMgr_Local.set_min_source_pos_cr (some handler) sid shard_id pos).cb calls
        = (if handler.set_min_source_pos sid shard_id pos < 0
            then handler.set_min_source_pos sid shard_id pos else 0,
          calls ++ [RGWSI_SIP_Marker.HandlerCall.set_min_source_pos sid shard_id pos]))
    ∧ ((((SIProviderCRMgr_Local.update_marker_cr (some handler) sid shard_id params).cb
            calls).1 = - EIO
          ↔ handler.set_marker sid shard_id params = - EIO)
      ∧ (((SIProviderCRMgr_Local.set_min_source_pos_cr (some handler) sid shard_id pos).cb
            calls).1 = - EIO
          ↔ handler.set_min_source_pos sid shard_id pos = - EIO)) := by
  have hcode : ∀ r : Int, (if r < 0 then r else 0) = - EIO ↔ r = - EIO := by
    intro r
    have hE : - EIO = (-5 : Int) := by decide
    rw [hE]
    by_cases hr : r < 0
    · rw [if_pos hr]
    · rw [if_neg hr]
      constructor
      · intro h0
        exact absurd h0 (by decide)
      · intro h5
        omega
  refine ⟨⟨rfl, rfl⟩, ⟨?_, ?_⟩, ⟨?_, ?_⟩⟩
  · by_cases hr : handler.set_marker sid shard_id params < 0 <;>
      simp [SIProviderCRMgr_Local.update_marker_cr, hr]
  · by_cases hr : handler.set_min_source_pos sid shard_id pos < 0 <;>
      simp [SIProviderCRMgr_Local.set_min_source_pos_cr, hr]
  · rw [← hcode (handler.set_marker sid shard_id params)]
    by_cases hr : handler.set_marker sid shard_id params < 0 <;>
      simp [SIProviderCRMgr_Local.update_marker_cr, hr]
  · rw [← hcode (handler.set_min_source_pos sid shard_id pos)]
    by_cases hr : handler.set_min_source_pos sid shard_id pos < 0 <;>
      simp [SIProviderCRMgr_Local.set_min_source_pos_cr, hr]

/-- The amended C15 at an unresolved handler and at a handler whose `set_marker`
returns `-22`. -/
theorem C15_marker_handler_witness :
    (SIProviderCRMgr_Local.update_marker_cr none "meta.inc" 0
        { marker := "m7", min_source_pos := none, flags := 0 }).cb []
      = (- EIO, [])
    ∧ (SIProviderCRMgr_Local.update_marker_cr (some ⟨fun _ _ _ => -22, fun _ _ _ => 0⟩)
        "meta.inc" 0 { marker := "m7", min_source_pos := none, flags := 0 }).cb []
      = (-22, [RGWSI_SIP_Marker.HandlerCall.set_marker "meta.inc" 0
          { marker := "m7", min_source_pos := none, flags := 0 }]) :=
  ⟨(C15_marker_handler ⟨fun _ _ _ => -22, fun _ _ _ => 0⟩ "meta.inc" 0
      { marker := "m7", min_source_pos := none, flags := 0 } "p1" []).1.1,
    (C15_marker_handler ⟨fun _ _ _ => -22, fun _ _ _ => 0⟩ "meta.inc" 0
      { marker := "m7", min_source_pos := none, flags := 0 } "p1" []).2.1.1⟩

/-! ## REST stage listing: the claim -/

/-- C16: for the REST manager and every provider info received with a non-negative
retcode, `GetStagesCR::operate` completes successfully and replaces the caller's
vector, whatever it held, with exactly the stage ids of the info's stages, same
length and same order; on a negative retcode of the info request it fails with that
code and the caller's vector is as it was. -/
theorem C16_list_stages (reply : RESTReply SIProvider.Info) (result : List stage_id_t) :
    (0 ≤ reply.retcode →
        SIProviderRESTCRs.GetStagesCR.operate reply result
            = (CRState.done, reply.result.stages.map (fun sinfo => sinfo.sid))
          ∧ (SIProviderRESTCRs.GetStagesCR.operate reply result).2.length
            = reply.result.stages.length
          ∧ ∀ i : Nat, (SIProviderRESTCRs.GetStagesCR.operate reply result).2[i]?
            = (reply.result.stages[i]?).map (fun sinfo => sinfo.sid))
      ∧ (reply.retcode < 0 →
        SIProviderRESTCRs.GetStagesCR.operate reply result
          = (CRState.error reply.retcode, result)) := by
  constructor
  · intro hok
    have hn : ¬ reply.retcode < 0 := not_lt.mpr hok
    have hop : SIProviderRESTCRs.GetStagesCR.operate reply result
        = (CRState.done, reply.result.stages.map (fun sinfo => sinfo.sid)) := by
      simp [SIProviderRESTCRs.GetStagesCR.operate, SIProviderRESTCRs.GetStagesInfoCR.operate,
        hn, set_cr_done, CRState.retcode, push_all_eq_append_map]
    rw [hop]
    refine ⟨rfl, ?_, ?_⟩
    · simp
    · intro i
      simp
  · intro hneg
    simp [SIProviderRESTCRs.GetStagesCR.operate, SIProviderRESTCRs.GetStagesInfoCR.operate,
      hneg, set_cr_error, CRState.retcode]

/-- C16 at the provider of end-to-end scenario 1 and at an info request that fails. -/
theorem C16_list_stages_witness :
    SIProviderRESTCRs.GetStagesCR.operate
        { retcode := 0,
          result := { name := "meta", instance_id := none,
                      stages := [⟨"meta.full", SIProvider.StageType.FULL, 1, "meta"⟩,
                                 ⟨"meta.inc", SIProvider.StageType.INC, 4, "meta"⟩] } }
        ["stale"]
      = (CRState.done, ["meta.full", "meta.inc"])
    ∧ SIProviderRESTCRs.GetStagesCR.operate
        { retcode := -5,
          result := { name := "", instance_id := none, stages := [] } }
        ["stale"]
      = (CRState.error (-5), ["stale"]) :=
  ⟨((C16_list_stages
        { retcode := 0,
          result := { name := "meta", instance_id := none,
                      stages := [⟨"meta.full", SIProvider.StageType.FULL, 1, "meta"⟩,
                                 ⟨"meta.inc", SIProvider.StageType.INC, 4, "meta"⟩] } }
        ["stale"]).1 (by decide)).1,
    (C16_list_stages
        { retcode := -5,
          result := { name := "", instance_id := none, stages := [] } }
        ["stale"]).2 (by decide)⟩

/-! ## Stage cursor with repeated ids: the claim -/

/-- C17: for every stage sequence the listing succeeds with (duplicates allowed):
for a non-empty sid whose first occurrence splits the sequence as
`front ++ sid :: back`, `GetNextStageCR::operate` completes with the head of `back`,
the element right after that first occurrence, or fails with `-ENODATA` when `back`
is empty, whatever `back` holds further on; for the empty sid it completes with the
first element, or fails with `-ENODATA` on the empty sequence, whatever the sequence
holds further on. -/
theorem C17_first_occurrence (mgr : SIProviderCRMgr) (stages : List stage_id_t)
    (next_sid : stage_id_t)
    (h : mgr.get_stages_cr [] = (CRState.done, stages)) :
    (∀ (front back : List stage_id_t) (sid : stage_id_t),
        sid ≠ "" → sid ∉ front → stages = front ++ sid :: back →
        GetNextStageCR.operate mgr sid next_sid
          = match back with
            | [] => (CRState.error (-ENODATA), next_sid)
            | next :: _ => (CRState.done, next))
      ∧ GetNextStageCR.operate mgr "" next_sid
          = match stages with
            | [] => (CRState.error (-ENODATA), next_sid)
            | s0 :: _ => (CRState.done, s0) := by
  constructor
  · intro front back sid hne hfirst hsplit
    rw [operate_of_done mgr stages sid next_sid h, isEmpty_eq_false_of_ne hne, hsplit,
      scan_skip_prefix sid next_sid back front hfirst]
    cases back with
    | nil => exact scan_found_nil sid next_sid
    | cons next rest => exact scan_found_cons sid next rest next_sid
  · rw [operate_of_done mgr stages "" next_sid h]
    cases stages with
    | nil => exact scan_found_nil "" next_sid
    | cons s0 rest => exact scan_found_cons "" s0 rest next_sid

/-- C17 at stages with a repeated id and an empty id: `a` yields the successor of its
first occurrence, and the empty sid yields the first stage. -/
theorem C17_first_occurrence_witness :
    GetNextStageCR.operate ⟨fun _ => (CRState.done, ["a", "b", "a", "", "c"])⟩ "a" "old"
        = (CRState.done, "b")
      ∧ GetNextStageCR.operate ⟨fun _ => (CRState.done, ["a", "b", "a", "", "c"])⟩ "" "old"
        = (CRState.done, "a") :=
  ⟨(C17_first_occurrence ⟨fun _ => (CRState.done, ["a", "b", "a", "", "c"])⟩
        ["a", "b", "a", "", "c"] "old" rfl).1 [] ["b", "a", "", "c"] "a"
      (by decide) (by decide) rfl,
    (C17_first_occurrence ⟨fun _ => (CRState.done, ["a", "b", "a", "", "c"])⟩
        ["a", "b", "a", "", "c"] "old" rfl).2⟩

end RGW
